import Mathlib

/-
  Verification of the camera session and capture-orchestration subsystem of
  the remote_camera_controller repository.

  The definitions below are a shallow embedding of the Python source:
    - camera_control/gphoto_handler.py  (CameraHandler.set_config,
      capture_preview, capture_image, get_status, initialize_camera)
    - app/routes/timelapse.py           (run_timelapse)
    - app/routes/preview.py, app.py     (start_preview_api rate handling)
    - app/routes/camera.py, app/__init__.py (get_camera, the shared lock)

  Device and filesystem interactions are modelled by explicit oracle
  parameters (what the gphoto2 library would return or raise) and by an
  explicit association-list filesystem; Python machine floats are modelled
  as rationals.
-/

namespace RemoteCam

/-- A JSON- or gphoto-derived Python scalar value, as handled by the routes
and by CameraHandler.set_config (strings, ints, floats, bools, None). -/
inductive Val where
  | vStr (s : String)
  | vInt (n : Int)
  | vFloat (q : Rat)
  | vBool (b : Bool)
  | vNone
deriving DecidableEq, Repr

/-- Python exception classes relevant to the embedded code paths. -/
inductive PyErr where
  | valueError
  | typeError
deriving DecidableEq, Repr

/-- Decimal digits of the fractional part num/den, produced like repr of a
Python float on finite decimal fractions; the fuel bounds the number of
emitted digits. -/
def fracDigits : Nat → Nat → Nat → String
  | 0, _, _ => ""
  | _ + 1, 0, _ => ""
  | fuel + 1, num, den =>
      let num10 := num * 10
      Nat.repr (num10 / den) ++ fracDigits fuel (num10 % den) den

/-- Rendering of a rational in Python float-repr style: sign, integer part,
a dot, and at least one fractional digit (str(2.0) is rendered "2.0"). -/
def ratRepr (q : Rat) : String :=
  let sign := if q < 0 then "-" else ""
  let a := |q|
  let ip := a.floor.toNat
  let frac := a - (ip : Rat)
  let ds := fracDigits 30 frac.num.toNat frac.den
  sign ++ Nat.repr ip ++ "." ++ (if ds = "" then "0" else ds)

/-- Python str() on the modelled value universe. -/
def pyStr : Val → String
  | .vStr s => s
  | .vInt n => toString n
  | .vFloat q => ratRepr q
  | .vBool b => if b then "True" else "False"
  | .vNone => "None"

/-- Python float(string): optional sign, decimal digits, optional fraction
(a faithful subset: exponents and inf/nan forms are not modelled and are
treated as a ValueError). -/
def parsePyFloat (s : String) : Option Rat :=
  let t := s.trim
  let sgn : Rat := if t.startsWith ("-") then -1 else 1
  let u := if t.startsWith ("-") || t.startsWith ("+") then t.drop 1 else t
  match u.splitOn (".") with
  | [a] => (a.toNat?).map (fun n => sgn * (n : Rat))
  | [a, b] =>
      if a = "" && b = "" then none
      else
        let ip? : Option Nat := if a = "" then some 0 else a.toNat?
        let fp? : Option Nat := if b = "" then some 0 else b.toNat?
        match ip?, fp? with
        | some i, some f => some (sgn * ((i : Rat) + (f : Rat) / ((10 : Rat) ^ b.length)))
        | _, _ => none
  | _ => none

/-- Python int(string): optional sign and decimal digits only. -/
def parsePyInt (s : String) : Option Int :=
  let t := s.trim
  let sgn : Int := if t.startsWith ("-") then -1 else 1
  let u := if t.startsWith ("-") || t.startsWith ("+") then t.drop 1 else t
  (u.toNat?).map (fun n => sgn * (n : Int))

/-- Python float(value) on the modelled value universe. -/
def pyFloatFn : Val → Except PyErr Rat
  | .vFloat q => .ok q
  | .vInt n => .ok (n : Rat)
  | .vBool b => .ok (if b then 1 else 0)
  | .vStr s =>
      match parsePyFloat s with
      | some q => .ok q
      | none => .error .valueError
  | .vNone => .error .typeError

/-- Truncation toward zero, as Python int(float) does. -/
def ratTrunc (q : Rat) : Int :=
  if 0 ≤ q then q.floor else q.ceil

/-- Python int(value) on the modelled value universe. -/
def pyIntFn : Val → Except PyErr Int
  | .vInt n => .ok n
  | .vBool b => .ok (if b then 1 else 0)
  | .vFloat q => .ok (ratTrunc q)
  | .vStr s =>
      match parsePyInt s with
      | some n => .ok n
      | none => .error .valueError
  | .vNone => .error .typeError

/-- gphoto2 widget type tags, with the range bounds attached to the RANGE
tag the way widget.get_range() reports them (min, max, step). -/
inductive WType where
  | wText
  | wRange (mn mx step : Rat)
  | wToggle
  | wChoice
  | wRadio
  | wMenu
  | wDate
  | wSection
deriving DecidableEq, BEq, Repr

/-- Printable name of a widget type, standing in for
gp_widget_type_as_string in error messages. -/
def wtypeName : WType → String
  | .wText => "TEXT"
  | .wRange _ _ _ => "RANGE"
  | .wToggle => "TOGGLE"
  | .wChoice => "CHOICE"
  | .wRadio => "RADIO"
  | .wMenu => "MENU"
  | .wDate => "DATE"
  | .wSection => "SECTION"

/-- True for the widget types the source validates against a choice list
(GP_WIDGET_CHOICE, GP_WIDGET_RADIO, GP_WIDGET_MENU). -/
def isChoiceType : WType → Bool
  | .wChoice => true
  | .wRadio => true
  | .wMenu => true
  | _ => false

/-- One configuration leaf as set_config observes it: label, type tag,
read-only flag, current value and (for enumerated types) the choice list. -/
structure Widget where
  label : String
  wtype : WType
  readonly : Bool
  value : Val
  choices : List Val
deriving DecidableEq, Repr

/-- The value-conversion step of set_config (gphoto_handler.py lines
361-387): RANGE clamps float(value) into [min, max], TOGGLE coerces
int(value) to 0/1, every other type takes str(value). A failed conversion
yields the error message of the ValueError branch. -/
def convertValue (settingName : String) (w : Widget) (value : Val) : Except String Val :=
  match w.wtype with
  | .wRange mn mx _ =>
      match pyFloatFn value with
      | .ok q => .ok (.vFloat (max mn (min mx q)))
      | .error _ =>
          .error ("Invalid value type for setting \x27" ++ settingName ++
            "\x27. Cannot convert \x27" ++ pyStr value ++ "\x27 for widget type " ++
            wtypeName w.wtype ++ ".")
  | .wToggle =>
      match pyIntFn value with
      | .ok n => .ok (.vInt (if n ≠ 0 then 1 else 0))
      | .error _ =>
          .error ("Invalid value type for setting \x27" ++ settingName ++
            "\x27. Cannot convert \x27" ++ pyStr value ++ "\x27 for widget type " ++
            wtypeName w.wtype ++ ".")
  | _ => .ok (.vStr (pyStr value))

/-- str_choices of the source (line 395): str() of each choice, skipping
None entries. -/
def strChoices (w : Widget) : List String :=
  w.choices.filterMap (fun c => if c = Val.vNone then none else some (pyStr c))

/-- Python repr of a list of strings, as interpolated into the invalid
choice message. -/
def pyListRepr (xs : List String) : String :=
  "[" ++ String.intercalate (", ") (xs.map (fun s => "\x27" ++ s ++ "\x27")) ++ "]"

/-- The failure message of the choice-membership validation (line 398). -/
def invalidChoiceMsg (settingName : String) (w : Widget) (v2 : Val) : String :=
  "Invalid value \x27" ++ pyStr v2 ++ "\x27 for setting \x27" ++ settingName ++
  "\x27. Available choices: " ++ pyListRepr (strChoices w)

/-- gphoto2 error codes the source distinguishes. -/
inductive GpErrorCode where
  | ioError
  | ptpTimeout
  | cameraBusy
  | cameraError
  | badParameters
  | modelNotFound
  | notSupported
deriving DecidableEq, BEq, Repr

/-- Device-supplied error string for a gphoto2 error (ex.string). -/
def gpErrString : GpErrorCode → String
  | .ioError => "I/O problem"
  | .ptpTimeout => "PTP timeout"
  | .cameraBusy => "Could not lock the device"
  | .cameraError => "Camera error"
  | .badParameters => "Bad parameters"
  | .modelNotFound => "Unknown model"
  | .notSupported => "Unsupported operation"

/-- The device-side oracle for one set_config call: the widget the setting
path resolves to (none models GP_ERROR_BAD_PARAMETERS from
gp_widget_find_by_name), the outcome of pushing the tree back with
camera.set_config, and the outcome of the verification re-read. -/
structure ConfigDevice where
  widget? : Option Widget
  push : Option GpErrorCode
  reread : Except GpErrorCode Val
deriving Repr

/-- Observable outcome of a set_config call: the returned (success,
message) pair, plus whether the execution reached the device write
(widget.set_value / camera.set_config, lines 414-415). -/
structure SetOutcome where
  success : Bool
  message : String
  wroteDevice : Bool
deriving DecidableEq, Repr

/-- CameraHandler.set_config (gphoto_handler.py lines 339-452), for a
connected session: find the widget, refuse read-only widgets, convert the
value by type, validate enumerated choices, short-circuit when the
converted value already equals the current one (compared via str), push
the tree, then verify by re-reading; a mismatching re-read fails, a
re-read that raises is only logged. -/
def set_config (dev : ConfigDevice) (settingName : String) (value : Val) : SetOutcome :=
  match dev.widget? with
  | none => ⟨false, "Setting \x27" ++ settingName ++ "\x27 not found or invalid.", false⟩
  | some w =>
      if w.readonly then
        ⟨false, "Setting \x27" ++ settingName ++ "\x27 (" ++ w.label ++ ") is read-only.", false⟩
      else
        match convertValue settingName w value with
        | .error msg => ⟨false, msg, false⟩
        | .ok v2 =>
            if isChoiceType w.wtype && !((strChoices w).contains (pyStr v2)) then
              ⟨false, invalidChoiceMsg settingName w v2, false⟩
            else if pyStr w.value = pyStr v2 then
              ⟨true, "Value for \x27" ++ settingName ++ "\x27 is already \x27" ++ pyStr w.value ++
                "\x27. No change needed.", false⟩
            else
              match dev.push with
              | some e =>
                  if e = .badParameters then
                    ⟨false, "Setting \x27" ++ settingName ++ "\x27 not found or invalid.", true⟩
                  else
                    ⟨false, "gphoto2 error: " ++ gpErrString e ++ "." ++
                      " Current value is \x27" ++ pyStr v2 ++ "\x27.", true⟩
              | none =>
                  match dev.reread with
                  | .ok newValue =>
                      if pyStr newValue ≠ pyStr v2 then
                        ⟨false, "Verification failed. Value is still \x27" ++ pyStr newValue ++
                          "\x27.", true⟩
                      else
                        ⟨true, "Setting \x27" ++ settingName ++ "\x27 updated to \x27" ++
                          pyStr v2 ++ "\x27.", true⟩
                  | .error _ =>
                      ⟨true, "Setting \x27" ++ settingName ++ "\x27 updated to \x27" ++
                        pyStr v2 ++ "\x27.", true⟩

/-- The gphoto2 error codes on which capture_preview and capture_image
release the camera handle (GP_ERROR_IO, GP_ERROR_PTP_TIMEOUT,
GP_ERROR_CAMERA_BUSY, GP_ERROR_CAMERA_ERROR; lines 498 and 574). -/
def releaseErrorCodes : List GpErrorCode :=
  [.ioError, .ptpTimeout, .cameraBusy, .cameraError]

/-- A filesystem modelled as an association list from path to file size in
bytes (only sizes are observable in the embedded code paths). -/
abbrev FS := List (String × Nat)

/-- os.remove preceded by os.path.exists: drop the entry if present. -/
def fsErase (fs : FS) (p : String) : FS :=
  fs.filter (fun e => e.1 != p)

/-- open(p, wb) followed by f.write(data): the file now holds exactly the
written bytes. -/
def fsWrite (fs : FS) (p : String) (n : Nat) : FS :=
  (p, n) :: fsErase fs p

/-- os.path.getsize, partial: some size when the file exists. -/
def fsSize (fs : FS) (p : String) : Option Nat :=
  (fs.find? (fun e => e.1 == p)).map (fun e => e.2)

/-- What the device does when capture_preview asks it for a frame: return
a byte payload of the given size, raise a gphoto2 error, or raise some
other exception. -/
inductive PreviewOutcome where
  | data (size : Nat)
  | gpError (c : GpErrorCode)
  | otherError
deriving DecidableEq, Repr

/-- Observable outcome of one capture_preview call on a connected session:
the returned boolean, whether the handle is still present afterwards, and
the resulting filesystem. -/
structure PreviewResult where
  success : Bool
  connected : Bool
  fs : FS
deriving DecidableEq, Repr

/-- CameraHandler.capture_preview (gphoto_handler.py lines 454-513) for a
connected session: an empty payload removes any existing target file and
fails without releasing the handle; a successful write is re-checked for
zero size (that branch fails without removal); a gphoto2 error releases
the handle exactly when its code is in releaseErrorCodes, and every error
path removes the target file if present. -/
def capture_preview (outcome : PreviewOutcome) (fs : FS) (targetPath : String) : PreviewResult :=
  match outcome with
  | .data n =>
      if n = 0 then
        ⟨false, true, fsErase fs targetPath⟩
      else
        let fs2 := fsWrite fs targetPath n
        if fsSize fs2 targetPath = some 0 then
          ⟨false, true, fs2⟩
        else
          ⟨true, true, fs2⟩
  | .gpError c =>
      ⟨false, !(releaseErrorCodes.contains c), fsErase fs targetPath⟩
  | .otherError =>
      ⟨false, true, fsErase fs targetPath⟩

/-- What the device does when capture_image triggers a full capture:
return the on-camera (folder, name) of the new file, raise a gphoto2
error, or raise some other exception. -/
inductive CaptureOutcome where
  | ok (folder fileName : String)
  | gpError (c : GpErrorCode)
  | otherError
deriving DecidableEq, Repr

/-- What the device does during the download (file_get + save). -/
inductive DownloadOutcome where
  | ok
  | gpError (c : GpErrorCode)
  | otherError
deriving DecidableEq, Repr

/-- Observable outcome of one capture_image call on a connected session:
the returned (success, path) pair, whether the handle is still present
afterwards, and whether the source file was deleted from the camera
storage. -/
structure CaptureResult where
  success : Bool
  path : Option String
  connected : Bool
  sourceDeleted : Bool
deriving DecidableEq, Repr

/-- CameraHandler.capture_image (gphoto_handler.py lines 515-580) for a
connected session: capture, then (when download_dir is given) download
and save under the camera-chosen file name; download errors fail without
releasing the handle; a gphoto2 error from the capture call releases the
handle exactly when its code is in releaseErrorCodes; the file_delete
call is commented out in the source, so no path deletes the source file. -/
def capture_image (cap : CaptureOutcome) (dl : DownloadOutcome)
    (downloadDir : Option String) : CaptureResult :=
  match cap with
  | .ok folder fileName =>
      match downloadDir with
      | some d =>
          match dl with
          | .ok => ⟨true, some (d ++ "/" ++ fileName), true, false⟩
          | .gpError _ => ⟨false, none, true, false⟩
          | .otherError => ⟨false, none, true, false⟩
      | none => ⟨true, some (folder ++ "/" ++ fileName), true, false⟩
  | .gpError c =>
      ⟨false, none, !(releaseErrorCodes.contains c), false⟩
  | .otherError =>
      ⟨false, none, true, false⟩

/-- Whether a capture outcome leaves the handle in place, per the error
code list at line 574 of the source. -/
def captureKeepsHandle : CaptureOutcome → Bool
  | .gpError c => !(releaseErrorCodes.contains c)
  | _ => true

/-- The parameter names CameraHandler.capture_image accepts besides self
(its Python signature is capture_image(self, download_dir=None)). -/
def captureImageParamNames : List String := ["download_dir"]

/-- Python call semantics for cam.capture_image(kw=pathArg): the keyword
must match a declared parameter name, otherwise the call raises TypeError
before the body runs. -/
def callCaptureImageWithKeyword (kw : String) (pathArg : String)
    (cap : CaptureOutcome) (dl : DownloadOutcome) : Except PyErr CaptureResult :=
  if captureImageParamNames.contains kw then
    .ok (capture_image cap dl (some pathArg))
  else
    .error .typeError

/-- Zero-padding to four digits, as the format spec 04d does. -/
def pad4 (n : Nat) : String :=
  let s := Nat.repr n
  if s.length < 4 then String.mk (List.replicate (4 - s.length) '0') ++ s else s

/-- Terminal state of one timelapse run: the last status message, the
running flag, and how many capture calls succeeded (files written). -/
structure TimelapseOutcome where
  message : String
  active : Bool
  captured : Nat
deriving DecidableEq, Repr

/-- The sequence folder name built at timelapse.py line 31. -/
def timelapseFolderName (timestamp : String) (count interval : Nat) : String :=
  timestamp ++ "_timelapse_" ++ Nat.repr count ++ "x" ++ Nat.repr interval ++ "s"

/-- The loop body of run_timelapse (app/routes/timelapse.py lines 52-97),
iterated structurally on the number of remaining iterations (the call
seeds remaining := count, so remaining + 1 = count - i on entry to each
body and the source guard i < count - 1 is 0 < remaining here). Each
iteration checks the cancellation event, then calls
cam.capture_image(save_path=photoFile) with the oracle outcomes for that
iteration, then (unless it is the last iteration) performs the
interruptible wait. -/
def runTimelapseLoop (dirPath folderName : String) (count : Nat)
    (cancelAtStart cancelDuringWait : Nat → Bool)
    (cap : Nat → CaptureOutcome) (dl : Nat → DownloadOutcome) :
    Nat → Nat → Nat → TimelapseOutcome
  | 0, _, captured =>
      ⟨"Completed " ++ Nat.repr count ++ " images in folder " ++ folderName ++ ".",
        false, captured⟩
  | remaining + 1, i, captured =>
      if cancelAtStart i then
        ⟨"Cancelled after " ++ Nat.repr i ++ " images.", false, captured⟩
      else
        let photoFile := dirPath ++ "/" ++ pad4 (i + 1) ++ ".jpg"
        match callCaptureImageWithKeyword ("save_path") photoFile (cap i) (dl i) with
        | .error _ =>
            ⟨"Error capturing image " ++ Nat.repr (i + 1) ++ ". Stopping.", false, captured⟩
        | .ok r =>
            if r.success then
              if 0 < remaining then
                if cancelDuringWait i then
                  ⟨"Cancelled after " ++ Nat.repr (i + 1) ++ " images.", false, captured + 1⟩
                else
                  runTimelapseLoop dirPath folderName count cancelAtStart cancelDuringWait
                    cap dl remaining (i + 1) (captured + 1)
              else
                runTimelapseLoop dirPath folderName count cancelAtStart cancelDuringWait
                  cap dl remaining (i + 1) (captured + 1)
            else
              ⟨"Error capturing image " ++ Nat.repr (i + 1) ++ ". Stopping.", false, captured⟩

/-- run_timelapse (app/routes/timelapse.py lines 10-97) after the sequence
folder was created: runs the capture loop over i in range(count). The
cancellation oracles give, per iteration, whether timelapse_active.is_set()
holds at the start-of-iteration check and whether timelapse_active.wait()
observes the event during the post-capture wait. -/
def run_timelapse (baseDir timestamp : String) (count interval : Nat)
    (cancelAtStart cancelDuringWait : Nat → Bool)
    (cap : Nat → CaptureOutcome) (dl : Nat → DownloadOutcome) : TimelapseOutcome :=
  let folderName := timelapseFolderName timestamp count interval
  runTimelapseLoop (baseDir ++ "/" ++ folderName) folderName count
    cancelAtStart cancelDuringWait cap dl count 0 0

/-- A lock acquisition or release on the one process-wide camera lock. -/
inductive LockAct where
  | acq
  | rel
deriving DecidableEq, Repr

/-- Execution of a sequence of lock actions by a single thread against a
non-reentrant threading.Lock it may already hold to the given depth: an
acquire while the lock is held blocks forever (no other holder exists to
release it), which the model reports as none. -/
def runLock : List LockAct → Nat → Option Nat
  | [], d => some d
  | LockAct.acq :: rest, 0 => runLock rest 1
  | LockAct.acq :: _, _ + 1 => none
  | LockAct.rel :: rest, d + 1 => runLock rest d
  | LockAct.rel :: _, 0 => none

/-- A with self.lock: block around a body. -/
def withLock (body : List LockAct) : List LockAct :=
  LockAct.acq :: (body ++ [LockAct.rel])

/-- Lock actions of CameraHandler.initialize_camera (gphoto_handler.py
line 36): its whole body runs inside with self.lock. -/
def initializeCameraLockActions : List LockAct :=
  withLock []

/-- Lock actions of CameraHandler.get_status (lines 97-151): the body
holds the lock and, when no handle exists, calls initialize_camera from
inside it. -/
def getStatusLockActions (connected : Bool) : List LockAct :=
  withLock (if connected then [] else initializeCameraLockActions)

/-- Lock actions of _ensure_camera_connected (lines 582-607), which runs
with the lock already held and calls initialize_camera when no handle
exists. -/
def ensureConnectedLockActions (connected : Bool) : List LockAct :=
  if connected then [] else initializeCameraLockActions

/-- Lock actions of a config or capture operation (set_config, get_config,
list_all_config, capture_preview, capture_image): a with self.lock block
whose body starts with _ensure_camera_connected. -/
def deviceOpLockActions (connected : Bool) : List LockAct :=
  withLock (ensureConnectedLockActions connected)

/-- Lock actions of the first get_camera call (app/routes/camera.py lines
10-15): it holds app.camera_lock while constructing CameraHandler, whose
init immediately calls initialize_camera on that same lock. -/
def getCameraFirstCallLockActions : List LockAct :=
  withLock initializeCameraLockActions

/-- The rate-handling block of the preview start endpoint
(app/routes/preview.py lines 59-64 and app.py lines 302-308): the float
conversion is assigned to app.preview_rate before the positivity check,
and the except clause that was meant to keep the default catches the
ValueError raised after that assignment, so a successfully converted rate
is stored whether or not it is positive. -/
def startPreviewRateUpdate (prevRate : Rat) (rate : Val) : Rat :=
  match pyFloatFn rate with
  | .ok q => q
  | .error _ => prevRate

/-- The inter-frame sleep of generate_preview_frames (preview.py line 39):
max(0, 1/rate - elapsed). -/
def previewSleepDuration (rate elapsed : Rat) : Rat :=
  max 0 (1 / rate - elapsed)

/-- Fixture for C7: an enumerated leaf whose current value is absent from
its own advertised choice list (state the data model permits: the value
and the choices are independent widget attributes). -/
def wChoiceGap : Widget :=
  { label := "WhiteBalance", wtype := .wRadio, readonly := false,
    value := .vStr "c", choices := [.vStr "a", .vStr "b"] }

/-- Fixture for C7: device resolving the path to wChoiceGap. -/
def devChoiceGap : ConfigDevice :=
  { widget? := some wChoiceGap, push := none, reread := Except.error .ioError }

/-- Fixture for the C7 witness: an ordinary enumerated leaf whose current
value is among its choices. -/
def wIsoNoop : Widget :=
  { label := "ISO Speed", wtype := .wRadio, readonly := false,
    value := .vStr "100", choices := [.vStr "100", .vStr "200"] }

/-- Fixture for the C7 witness. -/
def devIsoNoop : ConfigDevice :=
  { widget? := some wIsoNoop, push := none, reread := Except.error .cameraBusy }

/-- Fixture for the C8 witness. -/
def wWhiteBalance : Widget :=
  { label := "WhiteBalance", wtype := .wRadio, readonly := false,
    value := .vStr "Auto", choices := [.vStr "Auto", .vStr "Daylight"] }

/-- Fixture for the C8 witness. -/
def devWhiteBalance : ConfigDevice :=
  { widget? := some wWhiteBalance, push := none, reread := Except.error .ioError }

/-- Fixture for the C9 witness. -/
def wIsoVerify : Widget :=
  { label := "ISO Speed", wtype := .wRadio, readonly := false,
    value := .vStr "100", choices := [.vStr "100", .vStr "200"] }

/-- Fixture for the C9 witness: the push succeeds but the re-read still
reports the old value. -/
def devVerifyMismatch : ConfigDevice :=
  { widget? := some wIsoVerify, push := none, reread := Except.ok (.vStr "100") }

/-- Fixture for the C10 witness. -/
def wIsoReread : Widget :=
  { label := "ISO Speed", wtype := .wRadio, readonly := false,
    value := .vStr "100", choices := [.vStr "100", .vStr "200", .vStr "400"] }

/-- Fixture for the C10 witness: the push succeeds and the verification
re-read raises a gphoto2 error. -/
def devRereadRaises : ConfigDevice :=
  { widget? := some wIsoReread, push := none, reread := Except.error .ioError }

/-- str() of an embedded string is that string. -/
theorem pyStr_vStr (s : String) : pyStr (Val.vStr s) = s := rfl

/-- Conversion is plain str() for the enumerated widget types. -/
theorem convertValue_choiceType (settingName : String) (w : Widget) (value : Val)
    (hty : isChoiceType w.wtype = true) :
    convertValue settingName w value = Except.ok (Val.vStr (pyStr value)) := by
  unfold convertValue
  cases hwt : w.wtype <;> simp_all [isChoiceType]

/-- C7 (counterexample): on an enumerated leaf whose current value is not
in its own choice list, a set_config call with exactly the current value
(its converted form equals the current value) fails with the choices
message instead of succeeding with the no-change message: the choice
validation runs before the idempotence short-circuit. -/
theorem set_config_idempotence_counterexample :
    pyStr (Val.vStr "c") = pyStr wChoiceGap.value ∧
    (set_config devChoiceGap ("whitebalance") (Val.vStr "c")).success = false ∧
    (set_config devChoiceGap ("whitebalance") (Val.vStr "c")).wroteDevice = false ∧
    (set_config devChoiceGap ("whitebalance") (Val.vStr "c")).message =
      invalidChoiceMsg ("whitebalance") wChoiceGap (Val.vStr "c") :=
  ⟨rfl, rfl, rfl, rfl⟩

/-- C7 (amended): for every writable leaf, when the converted value passes
the enumerated-choice validation and its string form equals the current
value's string form, set_config returns success with the no-change
message and never reaches the device write. -/
theorem set_config_noop_when_converted_equals_current
    (dev : ConfigDevice) (settingName : String) (w : Widget) (value v2 : Val)
    (hw : dev.widget? = some w)
    (hro : w.readonly = false)
    (hconv : convertValue settingName w value = Except.ok v2)
    (hch : isChoiceType w.wtype = true → pyStr v2 ∈ strChoices w)
    (heq : pyStr w.value = pyStr v2) :
    set_config dev settingName value =
      ⟨true, "Value for \x27" ++ settingName ++ "\x27 is already \x27" ++ pyStr w.value ++
        "\x27. No change needed.", false⟩ := by
  simp [set_config, hw, hconv, hro, heq]
  exact hch

/-- C7 (witness): concrete no-change call on an ordinary leaf. -/
theorem set_config_noop_witness :
    set_config devIsoNoop ("iso") (Val.vStr "100") =
      ⟨true, "Value for \x27iso\x27 is already \x27100\x27. No change needed.", false⟩ :=
  set_config_noop_when_converted_equals_current devIsoNoop ("iso") wIsoNoop
    (Val.vStr "100") (Val.vStr "100") rfl rfl rfl (by decide) rfl

/-- C8: on an enumerated-choice leaf, a value whose string form is not in
the allowed choice list makes set_config fail with the message that
enumerates the allowed choices, without reaching the device write. -/
theorem set_config_rejects_value_outside_choices
    (dev : ConfigDevice) (settingName : String) (w : Widget) (value : Val)
    (hw : dev.widget? = some w)
    (hro : w.readonly = false)
    (hty : isChoiceType w.wtype = true)
    (hnot : pyStr value ∉ strChoices w) :
    set_config dev settingName value =
      ⟨false, invalidChoiceMsg settingName w (Val.vStr (pyStr value)), false⟩ := by
  simp [set_config, hw, convertValue_choiceType settingName w value hty, hro, hty, hnot,
    pyStr_vStr]

/-- C8 (witness): concrete rejected value on a radio leaf. -/
theorem set_config_rejects_value_outside_choices_witness :
    set_config devWhiteBalance ("whitebalance") (Val.vStr "Tungsten") =
      ⟨false, invalidChoiceMsg ("whitebalance") wWhiteBalance (Val.vStr "Tungsten"), false⟩ :=
  set_config_rejects_value_outside_choices devWhiteBalance ("whitebalance") wWhiteBalance
    (Val.vStr "Tungsten") rfl rfl rfl (by decide)

/-- C9: when the write is applied (push succeeds) and the verification
re-read returns a value whose string form differs from the requested
converted value, set_config fails with the verification-failure message. -/
theorem set_config_verification_mismatch_fails
    (dev : ConfigDevice) (settingName : String) (w : Widget) (value v2 newValue : Val)
    (hw : dev.widget? = some w)
    (hro : w.readonly = false)
    (hconv : convertValue settingName w value = Except.ok v2)
    (hch : isChoiceType w.wtype = true → pyStr v2 ∈ strChoices w)
    (hne : pyStr w.value ≠ pyStr v2)
    (hpush : dev.push = none)
    (hread : dev.reread = Except.ok newValue)
    (hmm : pyStr newValue ≠ pyStr v2) :
    set_config dev settingName value =
      ⟨false, "Verification failed. Value is still \x27" ++ pyStr newValue ++ "\x27.", true⟩ := by
  simp [set_config, hw, hconv, hro, hne, hpush, hread, hmm]
  exact hch

/-- C9 (witness): concrete accepted write whose read-back still shows the
old value. -/
theorem set_config_verification_mismatch_witness :
    set_config devVerifyMismatch ("iso") (Val.vStr "200") =
      ⟨false, "Verification failed. Value is still \x27100\x27.", true⟩ :=
  set_config_verification_mismatch_fails devVerifyMismatch ("iso") wIsoVerify
    (Val.vStr "200") (Val.vStr "200") (Val.vStr "100")
    rfl rfl rfl (by decide) (by decide) rfl rfl (by decide)

/-- C10: when the write is applied and the verification re-read itself
raises a gphoto2 error, set_config still returns success with the updated
message: a verification failure is reported only for a successful re-read
with a differing value. -/
theorem set_config_reread_error_reports_updated
    (dev : ConfigDevice) (settingName : String) (w : Widget) (value v2 : Val) (e : GpErrorCode)
    (hw : dev.widget? = some w)
    (hro : w.readonly = false)
    (hconv : convertValue settingName w value = Except.ok v2)
    (hch : isChoiceType w.wtype = true → pyStr v2 ∈ strChoices w)
    (hne : pyStr w.value ≠ pyStr v2)
    (hpush : dev.push = none)
    (hread : dev.reread = Except.error e) :
    set_config dev settingName value =
      ⟨true, "Setting \x27" ++ settingName ++ "\x27 updated to \x27" ++ pyStr v2 ++ "\x27.",
        true⟩ := by
  simp [set_config, hw, hconv, hro, hne, hpush, hread]
  exact hch

/-- C10 (witness): concrete write whose read-back raises. -/
theorem set_config_reread_error_witness :
    set_config devRereadRaises ("iso") (Val.vStr "400") =
      ⟨true, "Setting \x27iso\x27 updated to \x27400\x27.", true⟩ :=
  set_config_reread_error_reports_updated devRereadRaises ("iso") wIsoReread
    (Val.vStr "400") (Val.vStr "400") GpErrorCode.ioError
    rfl rfl rfl (by decide) (by decide) rfl rfl

/-- C4: capture_preview on a connected session returns failure, removes
any partially written target file and keeps the handle when the device
returns an empty payload; it returns failure and releases the handle when
the device raises an I/O, PTP-timeout, camera-busy or generic camera
error. -/
theorem capture_preview_failure_modes (fs : FS) (targetPath : String) :
    capture_preview (PreviewOutcome.data 0) fs targetPath =
      ⟨false, true, fsErase fs targetPath⟩ ∧
    (∀ c : GpErrorCode, releaseErrorCodes.contains c = true →
      capture_preview (PreviewOutcome.gpError c) fs targetPath =
        ⟨false, false, fsErase fs targetPath⟩) := by
  constructor
  · rfl
  · intro c hc
    unfold capture_preview
    simp [hc]

/-- C4 (witness): concrete I/O error while a stale preview file exists. -/
theorem capture_preview_failure_modes_witness :
    capture_preview (PreviewOutcome.gpError GpErrorCode.ioError)
        [(("preview.jpg"), 4096)] ("preview.jpg") =
      ⟨false, false, fsErase [(("preview.jpg"), 4096)] ("preview.jpg")⟩ :=
  (capture_preview_failure_modes [(("preview.jpg"), 4096)] ("preview.jpg")).2
    GpErrorCode.ioError rfl

/-- C2 (counterexample): a fully successful capture and download returns
with the handle still present and the source file still on the camera,
contradicting the claimed unconditional teardown and best-effort delete. -/
theorem capture_image_success_keeps_handle_counterexample :
    (capture_image (CaptureOutcome.ok ("/store_00010001") ("IMG_0001.JPG"))
        DownloadOutcome.ok (some ("/data/captures"))).success = true ∧
    (capture_image (CaptureOutcome.ok ("/store_00010001") ("IMG_0001.JPG"))
        DownloadOutcome.ok (some ("/data/captures"))).connected = true ∧
    (capture_image (CaptureOutcome.ok ("/store_00010001") ("IMG_0001.JPG"))
        DownloadOutcome.ok (some ("/data/captures"))).sourceDeleted = false :=
  ⟨rfl, rfl, rfl⟩

/-- C2 (amended): capture_image never deletes the source file from the
camera, and it releases the handle exactly when the capture call raises a
gphoto2 error whose code is in releaseErrorCodes; every other outcome,
including successful download and download/save failures, keeps the
handle. -/
theorem capture_image_teardown_only_on_capture_error
    (cap : CaptureOutcome) (dl : DownloadOutcome) (downloadDir : Option String) :
    (capture_image cap dl downloadDir).sourceDeleted = false ∧
    (capture_image cap dl downloadDir).connected = captureKeepsHandle cap := by
  cases cap <;> cases dl <;> cases downloadDir <;> exact ⟨rfl, rfl⟩

/-- C1: with every device capture and download set to succeed and no
cancellation, a timelapse run still stops at the first iteration with
zero files and the capture-error status, because run_timelapse passes the
keyword save_path to a capture_image that only accepts download_dir, so
every capture call raises TypeError. -/
theorem run_timelapse_always_stops_at_first_capture :
    run_timelapse ("timelapse_data") ("20260101_120000") 3 1
        (fun _ => false) (fun _ => false)
        (fun _ => CaptureOutcome.ok ("/store_00010001") ("IMG_0001.JPG"))
        (fun _ => DownloadOutcome.ok) =
      ⟨"Error capturing image 1. Stopping.", false, 0⟩ := by
  rfl

/-- C5: the claimed cancel-during-wait terminal state is unreachable: with
cancellation scheduled during the wait of iteration 1 and the device set
to succeed, the run still ends with the capture-error status and zero
files, because the capture call of iteration 1 raises TypeError before
any wait happens. -/
theorem run_timelapse_cancel_during_wait_unreachable :
    run_timelapse ("timelapse_data") ("20260101_130000") 2 1
        (fun _ => false) (fun i => decide (i = 0))
        (fun _ => CaptureOutcome.ok ("/store_00010001") ("IMG_0002.JPG"))
        (fun _ => DownloadOutcome.ok) =
      ⟨"Error capturing image 1. Stopping.", false, 0⟩ := by
  rfl

/-- C3: a device operation that finds the session connected completes its
lock protocol, but one that finds it disconnected re-acquires the
non-reentrant process-wide lock inside initialize_camera and blocks
forever, as does the very first get_camera call, which constructs
CameraHandler while holding that same lock. -/
theorem disconnected_device_operation_deadlocks :
    runLock (getStatusLockActions true) 0 = some 0 ∧
    runLock (getStatusLockActions false) 0 = none ∧
    runLock (deviceOpLockActions false) 0 = none ∧
    runLock getCameraFirstCallLockActions 0 = none :=
  ⟨rfl, rfl, rfl, rfl⟩

/-- C6: a supplied rate of -2 overwrites the previously configured default
rate 1 (the assignment precedes the positivity check, and the raised
ValueError is caught after the overwrite), while a rate whose float
conversion raises keeps the default; the loop then sleeps 0 at the stored
negative rate. -/
theorem preview_rate_clobbered_by_nonpositive_rate :
    startPreviewRateUpdate 1 (Val.vFloat (-2)) = -2 ∧
    startPreviewRateUpdate 1 Val.vNone = 1 ∧
    previewSleepDuration (startPreviewRateUpdate 1 (Val.vFloat (-2))) (1 / 2) = 0 := by
  refine ⟨rfl, rfl, ?_⟩
  norm_num [previewSleepDuration, startPreviewRateUpdate, pyFloatFn, max_def]

end RemoteCam
